import Mathlib

/-!
# FreeNOS, kernel/arm/ARMKernel.h

A register-level embedding of the five system-call trap stubs
(trapKernel1 .. trapKernel5) and of the declarations of class ARMKernel.

The stubs are inline assembly.  Each assembly template is embedded as the list
of its instructions, and a small interpreter runs that list on a register file.
The kernel side of the trap (everything that happens between the swi
instruction and the return to the instruction after it) is a parameter: a
function on the register file.
-/

set_option linter.unusedVariables false

namespace FreeNOS

/-! ## Machine words and registers -/

/-- The C type ulong of the header: one machine word.  The stubs only move
words between registers and C variables and perform no arithmetic on them, so
no wrap-around can occur and a word is a natural number. -/
abbrev ulong := Nat

/-- The sixteen core registers r0 .. r15 of the ARM register file. -/
abbrev Reg := Fin 16

/-- A register file: the content of every core register. -/
abbrev RegFile := Reg → ulong

abbrev r0 : Reg := 0
abbrev r1 : Reg := 1
abbrev r2 : Reg := 2
abbrev r3 : Reg := 3
abbrev r4 : Reg := 4
abbrev r5 : Reg := 5

/-- Write one register, leaving every other register as it was. -/
def setReg (s : RegFile) (rd : Reg) (v : ulong) : RegFile :=
  fun r => if r = rd then v else s r

/-- The kernel side of a trap: the register file the kernel finds when the swi
instruction executes is mapped to the register file it leaves when execution
resumes after the swi. -/
abbrev Handler := RegFile → RegFile

/-! ## The assembly templates -/

/-- The named operands that occur in the asm statements of the header:
the output operand [ret] "=r"(ret) and the input operands [arg4] "m"(arg4)
and [arg5] "m"(arg5). -/
inductive Operand where
  | ret
  | arg4
  | arg5
deriving DecidableEq, Repr

/-- The three instruction forms used by the templates. -/
inductive Instr where
  /-- The form "ldr rd, %[src]": load a register from a memory operand. -/
  | ldr (rd : Reg) (src : Operand)
  /-- The form "swi #imm": software interrupt. -/
  | swi (imm : Nat)
  /-- The form "mov %[dst], rs": copy a register into an output operand. -/
  | mov (dst : Operand) (rs : Reg)
deriving DecidableEq, Repr

/-- The state an asm statement runs on.  The field regs is the register file;
ret, arg4 and arg5 are the C variables bound to the operands (none when the
variable holds no value yet, or when the stub binds no such operand); seen
records the register file found by the kernel at every swi, oldest first.
The output operand is declared "=r"(ret): the variable ret lives in a core
register.  The source does not fix which one (there is no register variable
and no clobber list), so that register, retReg, is an input of the model and
may be any of the sixteen, r4 and r5 included. -/
structure Machine where
  regs : RegFile
  retReg : Reg
  ret : Option ulong
  arg4 : Option ulong
  arg5 : Option ulong
  seen : List RegFile

/-- Execute one instruction.  A load from an operand that is not a bound input
operand, or a move into an operand that is not the output operand, has no
meaning and yields none.  The move into the output operand writes the core
register that holds it, and with it the C variable ret. -/
def step (k : Handler) (m : Machine) : Instr → Option Machine
  | .ldr rd .arg4 => m.arg4.map fun v => { m with regs := setReg m.regs rd v }
  | .ldr rd .arg5 => m.arg5.map fun v => { m with regs := setReg m.regs rd v }
  | .ldr _ .ret => none
  | .swi _ => some { m with seen := m.seen ++ [m.regs], regs := k m.regs }
  | .mov .ret rs =>
    some { m with regs := setReg m.regs m.retReg (m.regs rs), ret := some (m.regs rs) }
  | .mov .arg4 _ => none
  | .mov .arg5 _ => none

/-- Execute an instruction list from first to last. -/
def run (k : Handler) : List Instr → Machine → Option Machine
  | [], m => some m
  | i :: rest, m => (step k m i).bind (run k rest)

/-- What a stub leaves behind: the value of its return statement, the register
file immediately after the last instruction of its template, and the register
files the kernel observed.  Code a compiler may add around the template is not
part of the source and not part of regs. -/
structure Outcome where
  ret : ulong
  regs : RegFile
  seen : List RegFile

/-- Run a template and then execute "return ret;". -/
def asmThenReturn (k : Handler) (code : List Instr) (m : Machine) : Option Outcome :=
  (run k code m).bind fun m1 =>
    m1.ret.map fun v => { ret := v, regs := m1.regs, seen := m1.seen }

/-- Template of trapKernel1 (lines 38-39). -/
def trapKernel1_asm : List Instr :=
  [ .swi 0,
    .mov .ret r0 ]

/-- Template of trapKernel2 (lines 50-51). -/
def trapKernel2_asm : List Instr :=
  [ .swi 0,
    .mov .ret r0 ]

/-- Template of trapKernel3 (lines 64-65). -/
def trapKernel3_asm : List Instr :=
  [ .swi 0,
    .mov .ret r0 ]

/-- Template of trapKernel4 (lines 79-81). -/
def trapKernel4_asm : List Instr :=
  [ .ldr r4 .arg4,
    .swi 0,
    .mov .ret r0 ]

/-- Template of trapKernel5 (lines 96-99). -/
def trapKernel5_asm : List Instr :=
  [ .ldr r4 .arg4,
    .ldr r5 .arg5,
    .swi 0,
    .mov .ret r0 ]

/-! ## The five stubs

Every stub takes the core register retReg that holds the output operand, the
kernel side k and the register file on entry to its instruction sequence,
followed by the parameters of the C function.  The
parameters api, arg1, arg2 and arg3 occur in no operand list, exactly as in the
source; arg4 and arg5 are bound as memory operands where the source does so. -/

/-- The function trapKernel1 (lines 35-42). -/
def trapKernel1 (retReg : Reg) (k : Handler) (entry : RegFile)
    (api arg1 : ulong) : Option Outcome :=
  asmThenReturn k trapKernel1_asm
    { regs := entry, retReg := retReg, ret := none, arg4 := none, arg5 := none, seen := [] }

/-- The function trapKernel2 (lines 47-54). -/
def trapKernel2 (retReg : Reg) (k : Handler) (entry : RegFile)
    (api arg1 arg2 : ulong) : Option Outcome :=
  asmThenReturn k trapKernel2_asm
    { regs := entry, retReg := retReg, ret := none, arg4 := none, arg5 := none, seen := [] }

/-- The function trapKernel3 (lines 61-68). -/
def trapKernel3 (retReg : Reg) (k : Handler) (entry : RegFile)
    (api arg1 arg2 arg3 : ulong) :
    Option Outcome :=
  asmThenReturn k trapKernel3_asm
    { regs := entry, retReg := retReg, ret := none, arg4 := none, arg5 := none, seen := [] }

/-- The function trapKernel4 (lines 75-85). -/
def trapKernel4 (retReg : Reg) (k : Handler) (entry : RegFile)
    (api arg1 arg2 arg3 arg4 : ulong) :
    Option Outcome :=
  asmThenReturn k trapKernel4_asm
    { regs := entry, retReg := retReg, ret := none, arg4 := some arg4, arg5 := none, seen := [] }

/-- The function trapKernel5 (lines 92-104). -/
def trapKernel5 (retReg : Reg) (k : Handler) (entry : RegFile)
    (api arg1 arg2 arg3 arg4 arg5 : ulong) :
    Option Outcome :=
  asmThenReturn k trapKernel5_asm
    { regs := entry, retReg := retReg, ret := none, arg4 := some arg4, arg5 := some arg5, seen := [] }

/-- The stub for a given argument list: trapKernelN for a list of N arguments,
N from 1 to 5; there is no stub for any other length. -/
def trapKernelN (retReg : Reg) (k : Handler) (entry : RegFile) (api : ulong) :
    List ulong → Option Outcome
  | [a1] => trapKernel1 retReg k entry api a1
  | [a1, a2] => trapKernel2 retReg k entry api a1 a2
  | [a1, a2, a3] => trapKernel3 retReg k entry api a1 a2 a3
  | [a1, a2, a3, a4] => trapKernel4 retReg k entry api a1 a2 a3 a4
  | [a1, a2, a3, a4, a5] => trapKernel5 retReg k entry api a1 a2 a3 a4 a5
  | _ => none

/-! ## Reading the register file and the templates -/

/-- The contents of r1 .. rN, in register order (N at most 5). -/
def argRegs (s : RegFile) (n : Nat) : List ulong :=
  ([r1, r2, r3, r4, r5].take n).map s

/-- The register convention on entry to a stub: the api selector is in r0 and
argument i is in register ri for i = 1, 2, 3, as far as the argument list
goes.  Arguments 4 and 5 are not register-passed: the stubs bind them as
memory operands. -/
def entryConvention (entry : RegFile) (api : ulong) (args : List ulong) : Prop :=
  entry r0 = api ∧ argRegs entry (min 3 args.length) = args.take 3

instance (entry : RegFile) (api : ulong) (args : List ulong) :
    Decidable (entryConvention entry api args) := by
  unfold entryConvention
  infer_instance

/-- True for the swi form. -/
def Instr.isSwi : Instr → Bool
  | .swi _ => true
  | _ => false

/-- True for the ldr form. -/
def Instr.isLdr : Instr → Bool
  | .ldr _ _ => true
  | _ => false

/-- The registers named in a template that an instruction writes by itself.
The mov form writes the register of the output operand, which the template
does not name; what the kernel does during swi is the handler, not the
instruction. -/
def Instr.writes : Instr → List Reg
  | .ldr rd _ => [rd]
  | .swi _ => []
  | .mov _ _ => []

/-- The instructions of a template that precede its first swi. -/
def beforeSwi (code : List Instr) : List Instr :=
  code.takeWhile fun i => !i.isSwi

/-- The registers written before the first swi, in program order. -/
def writesBeforeSwi (code : List Instr) : List Reg :=
  (beforeSwi code).flatMap Instr.writes

/-- The instructions that stand between the last ldr and the first swi of a
template; none when the template has no swi or no ldr before it. -/
def betweenLastLoadAndSwi (code : List Instr) : Option (List Instr) :=
  if code.any Instr.isSwi && (beforeSwi code).any Instr.isLdr then
    some ((beforeSwi code).reverse.takeWhile fun i => !i.isLdr).reverse
  else
    none

/-- A kernel side that resumes the caller with every register except r0 as it
was when the swi executed. -/
def restoresAllButR0 (k : Handler) : Prop :=
  ∀ (s : RegFile) (r : Reg), r ≠ r0 → k s r = s r

/-- A stub kernel side that writes a fixed value into r0 and touches nothing
else. -/
def stubHandler (v : ulong) : Handler :=
  fun s => setReg s r0 v

/-- The register file used for the end-to-end scenario: r0 = 7, r1 = 1, r2 = 2,
r3 = 3, and 0 in every other register. -/
def scenarioEntry : RegFile :=
  fun r => if r = r0 then 7 else if r.val ≤ 3 then r.val else 0

/-! ## Class ARMKernel (lines 109-151) -/

/-- Modelled from the spec: the class ARMInterrupt is only forward-declared in
this header (line 28).  The spec describes the interrupt controller as the
device that masks and unmasks individual IRQ lines; its state is which lines
are enabled. -/
structure ARMInterrupt where
  enabled : Nat → Bool

/-- Modelled from the spec: the member function of the absent class
ARMInterrupt that unmasks exactly one IRQ line. -/
def ARMInterrupt.enableIRQ (c : ARMInterrupt) (vector : Nat) : ARMInterrupt :=
  { enabled := fun line => if line = vector then true else c.enabled line }

/-- Modelled from the spec: the member function of the absent class
ARMInterrupt that masks exactly one IRQ line. -/
def ARMInterrupt.disableIRQ (c : ARMInterrupt) (vector : Nat) : ARMInterrupt :=
  { enabled := fun line => if line = vector then false else c.enabled line }

/-- Modelled from the spec: the type Memory::Range is declared outside this
header.  The spec describes it as a start address and an end address. -/
structure Memory.Range where
  startAddr : Nat
  endAddr : Nat
deriving DecidableEq, Repr

/-- Modelled from the spec: one range lies within another ("the kernel range
must lie within the RAM range"). -/
def Memory.Range.within (inner outer : Memory.Range) : Prop :=
  outer.startAddr ≤ inner.startAddr ∧ inner.endAddr ≤ outer.endAddr

instance (inner outer : Memory.Range) : Decidable (inner.within outer) := by
  unfold Memory.Range.within
  infer_instance

/-- The type Address of the header (Types.h): a physical address. -/
abbrev Address := Nat

/-- The data members of class ARMKernel (lines 146-150).  The member m_tags is
kept as the RAM range the boot tags describe, m_intr as the controller the
pointer designates; the timer m_timer has no state the claims depend on and is
kept as a tick count. -/
structure ARMKernel where
  m_tags : Memory.Range
  m_intr : ARMInterrupt
  m_timer : Nat

/-- The two ways construction fails according to the spec. -/
inductive Fatal where
  | kernelOutsideMemory
  | malformedBootTags
deriving DecidableEq, Repr

/-- Modelled from the spec: the body of the constructor ARMKernel::ARMKernel
(declared at lines 121-124) is not in the header.  Per the spec, construction
fails fatally when the kernel range is not contained in the supplied RAM range
and when the boot tags are malformed or absent; otherwise the orchestrator
retains the range the tags describe and the controller, and initialises the
timer.  The boot tag reader is external and is the parameter readTags. -/
def ARMKernel.construct (readTags : Address → Option Memory.Range)
    (kernel memory : Memory.Range) (intr : ARMInterrupt) (atags : Address) :
    Except Fatal ARMKernel :=
  if kernel.within memory then
    match readTags atags with
    | some ram => .ok { m_tags := ram, m_intr := intr, m_timer := 0 }
    | none => .error .malformedBootTags
  else
    .error .kernelOutsideMemory

/-- Modelled from the spec: the body of ARMKernel::enableIRQ (declared at line
131) is not in the header.  Per the spec it enables or disables exactly one
IRQ line at the interrupt controller and returns nothing. -/
def ARMKernel.enableIRQ (self : ARMKernel) (vector : Nat) (enabled : Bool) : ARMKernel :=
  if enabled then
    { self with m_intr := self.m_intr.enableIRQ vector }
  else
    { self with m_intr := self.m_intr.disableIRQ vector }

/-- An orchestrator whose controller has every line enabled. -/
def allEnabled : ARMKernel :=
  { m_tags := { startAddr := 0, endAddr := 0x20000000 },
    m_intr := { enabled := fun _ => true },
    m_timer := 0 }

/-- An orchestrator whose controller has every line disabled. -/
def noneEnabled : ARMKernel :=
  { m_tags := { startAddr := 0, endAddr := 0x20000000 },
    m_intr := { enabled := fun _ => false },
    m_timer := 0 }

/-! ## Theorems: the trap stubs -/

/-- The outcome of trapKernel1 in closed form. -/
theorem trapKernel1_eq (retReg : Reg) (k : Handler) (entry : RegFile) (api a1 : ulong) :
    trapKernel1 retReg k entry api a1
      = some { ret := k entry r0,
               regs := setReg (k entry) retReg (k entry r0),
               seen := [entry] } := rfl

/-- The outcome of trapKernel2 in closed form. -/
theorem trapKernel2_eq (retReg : Reg) (k : Handler) (entry : RegFile) (api a1 a2 : ulong) :
    trapKernel2 retReg k entry api a1 a2
      = some { ret := k entry r0,
               regs := setReg (k entry) retReg (k entry r0),
               seen := [entry] } := rfl

/-- The outcome of trapKernel3 in closed form. -/
theorem trapKernel3_eq (retReg : Reg) (k : Handler) (entry : RegFile)
    (api a1 a2 a3 : ulong) :
    trapKernel3 retReg k entry api a1 a2 a3
      = some { ret := k entry r0,
               regs := setReg (k entry) retReg (k entry r0),
               seen := [entry] } := rfl

/-- The outcome of trapKernel4 in closed form. -/
theorem trapKernel4_eq (retReg : Reg) (k : Handler) (entry : RegFile)
    (api a1 a2 a3 a4 : ulong) :
    trapKernel4 retReg k entry api a1 a2 a3 a4
      = some { ret := k (setReg entry r4 a4) r0,
               regs := setReg (k (setReg entry r4 a4)) retReg (k (setReg entry r4 a4) r0),
               seen := [setReg entry r4 a4] } := rfl

/-- The outcome of trapKernel5 in closed form. -/
theorem trapKernel5_eq (retReg : Reg) (k : Handler) (entry : RegFile)
    (api a1 a2 a3 a4 a5 : ulong) :
    trapKernel5 retReg k entry api a1 a2 a3 a4 a5
      = some { ret := k (setReg (setReg entry r4 a4) r5 a5) r0,
               regs := setReg (k (setReg (setReg entry r4 a4) r5 a5)) retReg
                 (k (setReg (setReg entry r4 a4) r5 a5) r0),
               seen := [setReg (setReg entry r4 a4) r5 a5] } := rfl

/-- Claim C1.  For every api selector and every list of N arguments, N from 1
to 5, when the stub is entered with api in r0 and arguments 1-3 in r1-r3 (and
arguments 4 and 5 bound as its memory operands), trapKernelN returns, the
kernel observes exactly one register file, and that register file holds api in
r0 and the N arguments, in order, in r1 .. rN; this for every register that
may hold the output operand. -/
theorem trap_delivers_api_and_args (retReg : Reg) (k : Handler) (entry : RegFile)
    (api : ulong) (args : List ulong) (hN : 1 ≤ args.length ∧ args.length ≤ 5)
    (hconv : entryConvention entry api args) :
    ∃ o s, trapKernelN retReg k entry api args = some o ∧ o.seen = [s] ∧
      s r0 = api ∧ argRegs s args.length = args := by
  obtain ⟨h0, hregs⟩ := hconv
  obtain ⟨hlo, hhi⟩ := hN
  match args, hlo, hhi, hregs with
  | [a1], _, _, hregs =>
    refine ⟨_, _, trapKernel1_eq retReg k entry api a1, rfl, h0, ?_⟩
    simpa [argRegs] using hregs
  | [a1, a2], _, _, hregs =>
    refine ⟨_, _, trapKernel2_eq retReg k entry api a1 a2, rfl, h0, ?_⟩
    simpa [argRegs] using hregs
  | [a1, a2, a3], _, _, hregs =>
    refine ⟨_, _, trapKernel3_eq retReg k entry api a1 a2 a3, rfl, h0, ?_⟩
    simpa [argRegs] using hregs
  | [a1, a2, a3, a4], _, _, hregs =>
    refine ⟨_, _, trapKernel4_eq retReg k entry api a1 a2 a3 a4, rfl, ?_, ?_⟩
    · simpa [setReg] using h0
    · simp [argRegs] at hregs
      obtain ⟨h1, h2, h3⟩ := hregs
      simp [argRegs, setReg, h1, h2, h3, r1, r2, r3, r4, r5]
  | [a1, a2, a3, a4, a5], _, _, hregs =>
    refine ⟨_, _, trapKernel5_eq retReg k entry api a1 a2 a3 a4 a5, rfl, ?_, ?_⟩
    · simpa [setReg] using h0
    · simp [argRegs] at hregs
      obtain ⟨h1, h2, h3⟩ := hregs
      simp [argRegs, setReg, h1, h2, h3, r1, r2, r3, r4, r5]
  | [], hlo, _, _ => simp at hlo
  | _ :: _ :: _ :: _ :: _ :: _ :: _, _, hhi, _ =>
    simp only [List.length_cons] at hhi
    omega

/-- Witness for C1: api = 7 and arguments (1,2,3,4,5) through trapKernel5, with
the output operand in r0. -/
theorem trap_delivers_api_and_args_witness :
    (1 ≤ [1, 2, 3, 4, 5].length ∧ [1, 2, 3, 4, 5].length ≤ 5) ∧
    entryConvention scenarioEntry 7 [1, 2, 3, 4, 5] ∧
    ∃ o s, trapKernelN r0 (stubHandler 42) scenarioEntry 7 [1, 2, 3, 4, 5] = some o ∧
      o.seen = [s] ∧ s r0 = 7 ∧ argRegs s [1, 2, 3, 4, 5].length = [1, 2, 3, 4, 5] :=
  ⟨by decide, by decide,
    trap_delivers_api_and_args r0 (stubHandler 42) scenarioEntry 7 [1, 2, 3, 4, 5]
      (by decide) (by decide)⟩

/-- The stub kernel side changes no register other than r0. -/
theorem stubHandler_restores (v : ulong) : restoresAllButR0 (stubHandler v) := by
  intro s r h
  simp [stubHandler, setReg, h]

/-- The stub kernel side leaves its value in r0. -/
theorem stubHandler_r0 (v : ulong) (s : RegFile) : stubHandler v s r0 = v := by
  simp [stubHandler, setReg]

/-- Claim C2.  For every N from 1 to 5, every entry register file, every
argument list, every kernel side k and every register that may hold the output
operand, trapKernelN returns, and the value it returns is the content of r0 in
the register file k leaves when the swi completes; with the stub kernel side
that writes 42 into r0 it returns 42, whatever api and arguments were
passed. -/
theorem trap_returns_r0 (retReg : Reg) (k : Handler) (entry : RegFile) (api : ulong)
    (args : List ulong) (hN : 1 ≤ args.length ∧ args.length ≤ 5) :
    (∃ o s, trapKernelN retReg k entry api args = some o ∧ o.seen = [s] ∧
      o.ret = k s r0) ∧
    (∃ o, trapKernelN retReg (stubHandler 42) entry api args = some o ∧ o.ret = 42) := by
  obtain ⟨hlo, hhi⟩ := hN
  match args, hlo, hhi with
  | [a1], _, _ =>
    exact ⟨⟨_, _, trapKernel1_eq retReg k entry api a1, rfl, rfl⟩,
      ⟨_, trapKernel1_eq retReg _ entry api a1, stubHandler_r0 42 entry⟩⟩
  | [a1, a2], _, _ =>
    exact ⟨⟨_, _, trapKernel2_eq retReg k entry api a1 a2, rfl, rfl⟩,
      ⟨_, trapKernel2_eq retReg _ entry api a1 a2, stubHandler_r0 42 entry⟩⟩
  | [a1, a2, a3], _, _ =>
    exact ⟨⟨_, _, trapKernel3_eq retReg k entry api a1 a2 a3, rfl, rfl⟩,
      ⟨_, trapKernel3_eq retReg _ entry api a1 a2 a3, stubHandler_r0 42 entry⟩⟩
  | [a1, a2, a3, a4], _, _ =>
    exact ⟨⟨_, _, trapKernel4_eq retReg k entry api a1 a2 a3 a4, rfl, rfl⟩,
      ⟨_, trapKernel4_eq retReg _ entry api a1 a2 a3 a4,
        stubHandler_r0 42 (setReg entry r4 a4)⟩⟩
  | [a1, a2, a3, a4, a5], _, _ =>
    exact ⟨⟨_, _, trapKernel5_eq retReg k entry api a1 a2 a3 a4 a5, rfl, rfl⟩,
      ⟨_, trapKernel5_eq retReg _ entry api a1 a2 a3 a4 a5,
        stubHandler_r0 42 (setReg (setReg entry r4 a4) r5 a5)⟩⟩
  | [], hlo, _ => simp at hlo
  | _ :: _ :: _ :: _ :: _ :: _ :: _, _, hhi =>
    simp only [List.length_cons] at hhi
    omega

/-- Witness for C2: api = 7, arguments (1,2,3,4,5), stub kernel side writing 42,
output operand in r0. -/
theorem trap_returns_r0_witness :
    (1 ≤ [1, 2, 3, 4, 5].length ∧ [1, 2, 3, 4, 5].length ≤ 5) ∧
    ((∃ o s, trapKernelN r0 (stubHandler 42) scenarioEntry 7 [1, 2, 3, 4, 5] = some o ∧
        o.seen = [s] ∧ o.ret = stubHandler 42 s r0) ∧
     (∃ o, trapKernelN r0 (stubHandler 42) scenarioEntry 7 [1, 2, 3, 4, 5] = some o ∧
        o.ret = 42)) :=
  ⟨by decide,
    trap_returns_r0 r0 (stubHandler 42) scenarioEntry 7 [1, 2, 3, 4, 5] (by decide)⟩

/-- Claim C3.  For every entry register file, with no assumption on any
register, all parameter values and every register that may hold the output
operand: trapKernel4 returns and r4 equals arg4 in the register file the
kernel observes at the swi; trapKernel5 returns and r4 equals arg4 and r5
equals arg5 there; and in both templates no instruction stands between the
last load and the swi. -/
theorem trap_loads_arg4_arg5 (retReg : Reg) (k : Handler) (entry : RegFile)
    (api arg1 arg2 arg3 arg4 arg5 : ulong) :
    (∃ o s, trapKernel4 retReg k entry api arg1 arg2 arg3 arg4 = some o ∧ o.seen = [s] ∧
      s r4 = arg4) ∧
    (∃ o s, trapKernel5 retReg k entry api arg1 arg2 arg3 arg4 arg5 = some o ∧
      o.seen = [s] ∧ s r4 = arg4 ∧ s r5 = arg5) ∧
    betweenLastLoadAndSwi trapKernel4_asm = some [] ∧
    betweenLastLoadAndSwi trapKernel5_asm = some [] := by
  refine ⟨⟨_, _, trapKernel4_eq retReg k entry api arg1 arg2 arg3 arg4, rfl, ?_⟩,
    ⟨_, _, trapKernel5_eq retReg k entry api arg1 arg2 arg3 arg4 arg5, rfl, ?_, ?_⟩,
    ?_, ?_⟩
  · simp [setReg]
  · simp [setReg, r4, r5]
  · simp [setReg]
  · decide
  · decide

/-- Claim C8.  Before the swi the templates of trapKernel1, trapKernel2 and
trapKernel3 write no register, that of trapKernel4 writes only r4 and that of
trapKernel5 only r4 and r5; and for every entry register file and every
register that may hold the output operand every stub returns, and every
register outside the written ones has at the swi the value it had on entry. -/
theorem trap_frame_before_swi (retReg : Reg) (k : Handler) (entry : RegFile)
    (api arg1 arg2 arg3 arg4 arg5 : ulong) :
    (writesBeforeSwi trapKernel1_asm = [] ∧ writesBeforeSwi trapKernel2_asm = [] ∧
      writesBeforeSwi trapKernel3_asm = [] ∧ writesBeforeSwi trapKernel4_asm = [r4] ∧
      writesBeforeSwi trapKernel5_asm = [r4, r5]) ∧
    (∃ o s, trapKernel1 retReg k entry api arg1 = some o ∧ o.seen = [s] ∧
      ∀ r, r ∉ writesBeforeSwi trapKernel1_asm → s r = entry r) ∧
    (∃ o s, trapKernel2 retReg k entry api arg1 arg2 = some o ∧ o.seen = [s] ∧
      ∀ r, r ∉ writesBeforeSwi trapKernel2_asm → s r = entry r) ∧
    (∃ o s, trapKernel3 retReg k entry api arg1 arg2 arg3 = some o ∧ o.seen = [s] ∧
      ∀ r, r ∉ writesBeforeSwi trapKernel3_asm → s r = entry r) ∧
    (∃ o s, trapKernel4 retReg k entry api arg1 arg2 arg3 arg4 = some o ∧ o.seen = [s] ∧
      ∀ r, r ∉ writesBeforeSwi trapKernel4_asm → s r = entry r) ∧
    (∃ o s, trapKernel5 retReg k entry api arg1 arg2 arg3 arg4 arg5 = some o ∧
      o.seen = [s] ∧ ∀ r, r ∉ writesBeforeSwi trapKernel5_asm → s r = entry r) := by
  have w4 : writesBeforeSwi trapKernel4_asm = [r4] := by decide
  have w5 : writesBeforeSwi trapKernel5_asm = [r4, r5] := by decide
  refine ⟨⟨by decide, by decide, by decide, w4, w5⟩,
    ⟨_, _, trapKernel1_eq retReg k entry api arg1, rfl, fun r _ => rfl⟩,
    ⟨_, _, trapKernel2_eq retReg k entry api arg1 arg2, rfl, fun r _ => rfl⟩,
    ⟨_, _, trapKernel3_eq retReg k entry api arg1 arg2 arg3, rfl, fun r _ => rfl⟩,
    ⟨_, _, trapKernel4_eq retReg k entry api arg1 arg2 arg3 arg4, rfl, ?_⟩,
    ⟨_, _, trapKernel5_eq retReg k entry api arg1 arg2 arg3 arg4 arg5, rfl, ?_⟩⟩
  · intro r hr
    rw [w4] at hr
    simp at hr
    simp [setReg, hr]
  · intro r hr
    rw [w5] at hr
    simp at hr
    simp [setReg, hr]

/-- Counterexample for C9: the kernel side restores every register except r0,
trapKernel4 is entered with r4 = 0 and arg4 = 4, and whichever register holds
the output operand, r4 is not 0 when the instruction sequence has ended (it is
4, or 42 when r4 itself holds the output operand). -/
theorem trapKernel4_does_not_preserve_r4 :
    restoresAllButR0 (stubHandler 42) ∧ scenarioEntry r4 = 0 ∧
    ∀ retReg : Reg, ∃ o, trapKernel4 retReg (stubHandler 42) scenarioEntry 7 1 2 3 4 = some o ∧
      (o.regs r4 = 4 ∨ o.regs r4 = 42) ∧ o.regs r4 ≠ scenarioEntry r4 := by
  have hz : scenarioEntry r4 = 0 := by decide
  refine ⟨stubHandler_restores 42, hz, fun retReg => ?_⟩
  have hval : setReg (stubHandler 42 (setReg scenarioEntry r4 4)) retReg
      (stubHandler 42 (setReg scenarioEntry r4 4) r0) r4 = 4 ∨
      setReg (stubHandler 42 (setReg scenarioEntry r4 4)) retReg
      (stubHandler 42 (setReg scenarioEntry r4 4) r0) r4 = 42 := by
    by_cases h : r4 = retReg
    · right
      simp [setReg, stubHandler, h]
    · left
      simp [setReg, stubHandler, h, r4, r0]
  refine ⟨_, trapKernel4_eq retReg (stubHandler 42) scenarioEntry 7 1 2 3 4, hval, ?_⟩
  rw [hz]
  rcases hval with h | h
  · intro h0
    exact absurd (h.symm.trans h0) (by decide)
  · intro h0
    exact absurd (h.symm.trans h0) (by decide)

/-- Claim C9, amended.  If the kernel side restores every register except r0
to the value it had at the swi, then for every register retReg that holds the
output operand every stub returns, and when its instruction sequence has
ended: whichever of r4 and r5 is retReg holds the returned value; otherwise,
after trapKernel1, trapKernel2 and trapKernel3, r4 and r5 hold the values
they held on entry; after trapKernel4, r5 holds its entry value and r4 holds
arg4; after trapKernel5, r4 holds arg4 and r5 holds arg5. -/
theorem trap_r4_r5_after_sequence (retReg : Reg) (k : Handler) (entry : RegFile)
    (api arg1 arg2 arg3 arg4 arg5 : ulong) (hk : restoresAllButR0 k) :
    (∃ o, trapKernel1 retReg k entry api arg1 = some o ∧
      o.regs r4 = (if r4 = retReg then o.ret else entry r4) ∧
      o.regs r5 = (if r5 = retReg then o.ret else entry r5)) ∧
    (∃ o, trapKernel2 retReg k entry api arg1 arg2 = some o ∧
      o.regs r4 = (if r4 = retReg then o.ret else entry r4) ∧
      o.regs r5 = (if r5 = retReg then o.ret else entry r5)) ∧
    (∃ o, trapKernel3 retReg k entry api arg1 arg2 arg3 = some o ∧
      o.regs r4 = (if r4 = retReg then o.ret else entry r4) ∧
      o.regs r5 = (if r5 = retReg then o.ret else entry r5)) ∧
    (∃ o, trapKernel4 retReg k entry api arg1 arg2 arg3 arg4 = some o ∧
      o.regs r4 = (if r4 = retReg then o.ret else arg4) ∧
      o.regs r5 = (if r5 = retReg then o.ret else entry r5)) ∧
    (∃ o, trapKernel5 retReg k entry api arg1 arg2 arg3 arg4 arg5 = some o ∧
      o.regs r4 = (if r4 = retReg then o.ret else arg4) ∧
      o.regs r5 = (if r5 = retReg then o.ret else arg5)) := by
  have h4 : r4 ≠ r0 := by decide
  have h5 : r5 ≠ r0 := by decide
  have h45 : r4 ≠ r5 := by decide
  have h54 : r5 ≠ r4 := by decide
  refine ⟨⟨_, trapKernel1_eq retReg k entry api arg1, ?_, ?_⟩,
    ⟨_, trapKernel2_eq retReg k entry api arg1 arg2, ?_, ?_⟩,
    ⟨_, trapKernel3_eq retReg k entry api arg1 arg2 arg3, ?_, ?_⟩,
    ⟨_, trapKernel4_eq retReg k entry api arg1 arg2 arg3 arg4, ?_, ?_⟩,
    ⟨_, trapKernel5_eq retReg k entry api arg1 arg2 arg3 arg4 arg5, ?_, ?_⟩⟩
  all_goals
    simp only [setReg, hk _ _ h4, hk _ _ h5, h45, h54, if_true, if_false]

/-- Witness for the amended C9: the stub kernel side writing 42, the scenario
register file, api = 7, arguments (1,2,3,4,5) and the output operand in r4. -/
theorem trap_r4_r5_after_sequence_witness :
    restoresAllButR0 (stubHandler 42) ∧
    ((∃ o, trapKernel1 r4 (stubHandler 42) scenarioEntry 7 1 = some o ∧
        o.regs r4 = (if r4 = r4 then o.ret else scenarioEntry r4) ∧
        o.regs r5 = (if r5 = r4 then o.ret else scenarioEntry r5)) ∧
     (∃ o, trapKernel2 r4 (stubHandler 42) scenarioEntry 7 1 2 = some o ∧
        o.regs r4 = (if r4 = r4 then o.ret else scenarioEntry r4) ∧
        o.regs r5 = (if r5 = r4 then o.ret else scenarioEntry r5)) ∧
     (∃ o, trapKernel3 r4 (stubHandler 42) scenarioEntry 7 1 2 3 = some o ∧
        o.regs r4 = (if r4 = r4 then o.ret else scenarioEntry r4) ∧
        o.regs r5 = (if r5 = r4 then o.ret else scenarioEntry r5)) ∧
     (∃ o, trapKernel4 r4 (stubHandler 42) scenarioEntry 7 1 2 3 4 = some o ∧
        o.regs r4 = (if r4 = r4 then o.ret else 4) ∧
        o.regs r5 = (if r5 = r4 then o.ret else scenarioEntry r5)) ∧
     (∃ o, trapKernel5 r4 (stubHandler 42) scenarioEntry 7 1 2 3 4 5 = some o ∧
        o.regs r4 = (if r4 = r4 then o.ret else 4) ∧
        o.regs r5 = (if r5 = r4 then o.ret else 5))) :=
  ⟨stubHandler_restores 42,
    trap_r4_r5_after_sequence r4 (stubHandler 42) scenarioEntry 7 1 2 3 4 5
      (stubHandler_restores 42)⟩

/-- Claim C10.  The templates of trapKernel1, trapKernel2 and trapKernel3 are
the same instruction list, and for every entry register file and kernel side
the three stubs return, with the same outcome whatever parameters they are
given when the output operand is in the same register, and with the same
register file shown to the kernel and the same returned value whichever
registers hold their output operands; and trapKernel4 and trapKernel5, started
from the same register file with the same arg4, return after showing the
kernel register files that agree on every register except r5. -/
theorem trap_stubs_equivalent (retReg ret1 ret2 ret3 ret4 ret5 : Reg) (k : Handler)
    (entry : RegFile)
    (api1 a1 api2 b1 b2 api3 c1 c2 c3 api4 d1 d2 d3 api5 e1 e2 e3 arg4 arg5 : ulong) :
    (trapKernel1_asm = trapKernel2_asm ∧ trapKernel2_asm = trapKernel3_asm) ∧
    (∃ o, trapKernel1 retReg k entry api1 a1 = some o ∧
      trapKernel2 retReg k entry api2 b1 b2 = some o ∧
      trapKernel3 retReg k entry api3 c1 c2 c3 = some o) ∧
    (∃ o1 o2 o3, trapKernel1 ret1 k entry api1 a1 = some o1 ∧
      trapKernel2 ret2 k entry api2 b1 b2 = some o2 ∧
      trapKernel3 ret3 k entry api3 c1 c2 c3 = some o3 ∧
      o1.seen = o2.seen ∧ o2.seen = o3.seen ∧ o1.ret = o2.ret ∧ o2.ret = o3.ret) ∧
    (∃ o4 o5 s4 s5, trapKernel4 ret4 k entry api4 d1 d2 d3 arg4 = some o4 ∧
      trapKernel5 ret5 k entry api5 e1 e2 e3 arg4 arg5 = some o5 ∧
      o4.seen = [s4] ∧ o5.seen = [s5] ∧ ∀ r, r ≠ r5 → s4 r = s5 r) := by
  refine ⟨⟨rfl, rfl⟩,
    ⟨_, trapKernel1_eq retReg k entry api1 a1, trapKernel2_eq retReg k entry api2 b1 b2,
      trapKernel3_eq retReg k entry api3 c1 c2 c3⟩,
    ⟨_, _, _, trapKernel1_eq ret1 k entry api1 a1, trapKernel2_eq ret2 k entry api2 b1 b2,
      trapKernel3_eq ret3 k entry api3 c1 c2 c3, rfl, rfl, rfl, rfl⟩,
    ⟨_, _, _, _, trapKernel4_eq ret4 k entry api4 d1 d2 d3 arg4,
      trapKernel5_eq ret5 k entry api5 e1 e2 e3 arg4 arg5, rfl, rfl, ?_⟩⟩
  intro r hr
  simp [setReg, hr]

/-! ## Theorems: class ARMKernel -/

/-- Enabling a line twice at the controller is enabling it once. -/
theorem ARMInterrupt.enableIRQ_idem (c : ARMInterrupt) (v : Nat) :
    (c.enableIRQ v).enableIRQ v = c.enableIRQ v := by
  simp only [ARMInterrupt.enableIRQ, ARMInterrupt.mk.injEq]
  funext line
  by_cases h : line = v <;> simp [h]

/-- Disabling a line twice at the controller is disabling it once. -/
theorem ARMInterrupt.disableIRQ_idem (c : ARMInterrupt) (v : Nat) :
    (c.disableIRQ v).disableIRQ v = c.disableIRQ v := by
  simp only [ARMInterrupt.disableIRQ, ARMInterrupt.mk.injEq]
  funext line
  by_cases h : line = v <;> simp [h]

/-- Claim C5.  For every IRQ vector and every orchestrator (hence every
controller state), enableIRQ(v, true) applied twice leaves the same state as
applying it once, and likewise enableIRQ(v, false). -/
theorem enableIRQ_idempotent (self : ARMKernel) (v : Nat) :
    (self.enableIRQ v true).enableIRQ v true = self.enableIRQ v true ∧
    (self.enableIRQ v false).enableIRQ v false = self.enableIRQ v false := by
  constructor
  · simp [ARMKernel.enableIRQ, ARMInterrupt.enableIRQ_idem]
  · simp [ARMKernel.enableIRQ, ARMInterrupt.disableIRQ_idem]

/-- Counterexample for C6: on a controller where line 3 is already enabled,
enableIRQ(3, true) followed by enableIRQ(3, false) leaves line 3 disabled,
which is not the state before the enable call. -/
theorem enable_then_disable_changes_enabled_line :
    allEnabled.m_intr.enabled 3 = true ∧
    ((allEnabled.enableIRQ 3 true).enableIRQ 3 false).m_intr.enabled 3 = false ∧
    (allEnabled.enableIRQ 3 true).enableIRQ 3 false ≠ allEnabled := by
  refine ⟨rfl, rfl, ?_⟩
  intro h
  have h3 := congrArg (fun x : ARMKernel => x.m_intr.enabled 3) h
  simp [ARMKernel.enableIRQ, ARMInterrupt.enableIRQ, ARMInterrupt.disableIRQ,
    allEnabled] at h3

/-- Claim C6, amended.  For every IRQ vector v and every orchestrator: when
line v is disabled beforehand, enableIRQ(v, true) followed by
enableIRQ(v, false) returns the orchestrator and its controller to the state
before the enable call; and a call of enableIRQ on v, enabling or disabling,
leaves the status of every line other than v as it was. -/
theorem enable_then_disable_restores (self : ARMKernel) (v line : Nat) (enabled : Bool) :
    (self.m_intr.enabled v = false →
      (self.enableIRQ v true).enableIRQ v false = self) ∧
    (line ≠ v →
      (self.enableIRQ v enabled).m_intr.enabled line = self.m_intr.enabled line) := by
  constructor
  · intro hv
    obtain ⟨tags, ⟨en⟩, timer⟩ := self
    simp only [ARMKernel.enableIRQ, ARMInterrupt.enableIRQ, ARMInterrupt.disableIRQ,
      if_true, Bool.false_eq_true, if_false, ARMKernel.mk.injEq, ARMInterrupt.mk.injEq,
      true_and, and_true]
    funext l
    by_cases h : l = v
    · subst h
      simpa using hv.symm
    · simp [h]
  · intro hline
    cases enabled <;>
      simp [ARMKernel.enableIRQ, ARMInterrupt.enableIRQ, ARMInterrupt.disableIRQ, hline]

/-- Witness for the amended C6: line 3 on a controller with every line
disabled, observed on line 5. -/
theorem enable_then_disable_restores_witness :
    noneEnabled.m_intr.enabled 3 = false ∧ (5 : Nat) ≠ 3 ∧
    (noneEnabled.enableIRQ 3 true).enableIRQ 3 false = noneEnabled ∧
    (noneEnabled.enableIRQ 3 true).m_intr.enabled 5 = noneEnabled.m_intr.enabled 5 :=
  ⟨rfl, by decide, (enable_then_disable_restores noneEnabled 3 5 true).1 rfl,
    (enable_then_disable_restores noneEnabled 3 5 true).2 (by decide)⟩

/-- Claim C7.  For every pair of ranges in which the kernel range is not
contained in the memory range, construction fails with a fatal error and
produces no orchestrator, whatever the interrupt controller, the boot-tag
address and the boot tag reader. -/
theorem construct_fails_when_kernel_outside_memory
    (readTags : Address → Option Memory.Range) (kernel memory : Memory.Range)
    (intr : ARMInterrupt) (atags : Address) (h : ¬ kernel.within memory) :
    ARMKernel.construct readTags kernel memory intr atags
      = Except.error Fatal.kernelOutsideMemory := by
  simp [ARMKernel.construct, h]

/-- Witness for C7: kernel range 0x8000 .. 0x30000000 against RAM
0 .. 0x20000000, with boot tags that describe the RAM correctly. -/
theorem construct_fails_when_kernel_outside_memory_witness :
    ¬ Memory.Range.within { startAddr := 0x8000, endAddr := 0x30000000 }
        { startAddr := 0, endAddr := 0x20000000 } ∧
    ARMKernel.construct (fun _ => some { startAddr := 0, endAddr := 0x20000000 })
        { startAddr := 0x8000, endAddr := 0x30000000 }
        { startAddr := 0, endAddr := 0x20000000 } noneEnabled.m_intr 0x100
      = Except.error Fatal.kernelOutsideMemory :=
  ⟨by decide,
    construct_fails_when_kernel_outside_memory _ _ _ _ _ (by decide)⟩

end FreeNOS
